import Mathlib

/-!
Shallow embedding of the `pallet-collective-proxy` pallet
(`src/pallets/collective-proxy/src/lib.rs`) and proofs of its specified
properties.

The pallet keeps one storage item, `Proxies`, a `BoundedVec` of
`ProxyDefinition { proxy, filter }` bounded by `MaxProxies`.  We embed the
bounded vector as a plain `List` together with the explicit bound `maxProxies`,
and every `try_mutate` closure as a pure function returning `Except`.

Host-supplied collaborators are parameters:
  * `sup : F → F → Bool` embeds `CallFilter::is_superset` (`InstanceFilter`),
  * `permits : F → C → Bool` embeds `CallFilter::filter` (`InstanceFilter`),
  * `adminAuth`, `execAuth : A → Bool` embed the outcome of
    `ProxyAdmin::ensure_origin` and `CollectiveProxy::ensure_origin`,
  * `base : C → Bool` embeds the call filter the fresh
    `RawOrigin::Signed(..)` origin starts with,
  * `dispatch` embeds `call.dispatch(origin)`, returning either a
    post-dispatch payload `P` or a payload together with an error
    classification `E` (mirroring `DispatchErrorWithPostInfo`).
-/

deriving instance DecidableEq for Except

/-- Embeds `ProxyDefinition<AccountId, CallFilter>` (lib.rs, lines 57-62). -/
structure ProxyDefinition (A F : Type) where
  proxy : A
  filter : F
deriving DecidableEq, Repr

/-- The pallet error enum (lib.rs, lines 124-130) together with `BadOrigin`,
the `DispatchError` produced by a failing `ensure_origin` check. -/
inductive PalletError where
  | TooManyProxies
  | NotFound
  | BadOrigin
deriving DecidableEq, Repr

/-- A runtime origin as `execute_call` builds it: the signing account plus the
call filter currently attached to the origin (`OriginTrait` state). -/
structure SystemOrigin (A C : Type) where
  who : A
  callFilter : C → Bool

/-- Embeds `frame_system::RawOrigin::Signed(who).into()`: a signed origin
carrying the ambient base call filter. -/
def signedOrigin {A C : Type} (base : C → Bool) (who : A) : SystemOrigin A C :=
  { who := who, callFilter := base }

/-- Embeds `OriginTrait::add_filter`: the new predicate is conjoined with the
filter already on the origin. -/
def addFilter {A C : Type} (o : SystemOrigin A C) (g : C → Bool) :
    SystemOrigin A C :=
  { who := o.who, callFilter := fun c => o.callFilter c && g c }

/-- Embeds `e.map(|_| ()).map_err(|e| e.error)` (lib.rs, line 177): the
post-dispatch payload is discarded and only the error classification is kept. -/
def classifyOutcome {P E : Type} : Except (P × E) P → Except E Unit
  | Except.ok _ => Except.ok ()
  | Except.error pe => Except.error pe.2

/-- Embeds the `try_mutate` closure of `add_proxy` (lib.rs, lines 198-207):
if no stored grant for `p` has a filter that `is_superset` of `f`, push a new
`ProxyDefinition`; `BoundedVec::try_push` fails iff the vector is full. -/
def add_proxy {A F : Type} [DecidableEq A] (maxProxies : Nat)
    (sup : F → F → Bool) (proxies : List (ProxyDefinition A F))
    (p : A) (f : F) : Except PalletError (List (ProxyDefinition A F)) :=
  if proxies.any (fun d => decide (d.proxy = p) && sup d.filter f) then
    Except.ok proxies
  else if proxies.length < maxProxies then
    Except.ok (proxies ++ [⟨p, f⟩])
  else
    Except.error PalletError.TooManyProxies

/-- Embeds the `try_mutate` closure of `remove_proxy` (lib.rs, lines 225-232):
`retain` keeps exactly the definitions different from `(p, f)`. -/
def remove_proxy {A F : Type} [DecidableEq A] [DecidableEq F]
    (proxies : List (ProxyDefinition A F)) (p : A) (f : F) :
    List (ProxyDefinition A F) :=
  proxies.filter (fun d => decide (d ≠ ⟨p, f⟩))

/-- Embeds `Pallet::find_proxy` (lib.rs, lines 237-244): the first stored
definition whose `proxy` field equals `p`, or `Error::NotFound`. -/
def find_proxy {A F : Type} [DecidableEq A]
    (proxies : List (ProxyDefinition A F)) (p : A) :
    Except PalletError (ProxyDefinition A F) :=
  match proxies.find? (fun d => decide (d.proxy = p)) with
  | some d => Except.ok d
  | none => Except.error PalletError.NotFound

/-- The full `add_proxy` dispatchable (lib.rs, lines 192-208): the
`ProxyAdmin` gate first, then the `try_mutate`; on error the storage is left
unchanged (`try_mutate` semantics).  Returns the dispatch result together with
the storage after the call. -/
def add_proxy_call {A F : Type} [DecidableEq A] (adminAuth : A → Bool)
    (maxProxies : Nat) (sup : F → F → Bool)
    (proxies : List (ProxyDefinition A F)) (caller : A) (p : A) (f : F) :
    Except PalletError Unit × List (ProxyDefinition A F) :=
  if adminAuth caller then
    match add_proxy maxProxies sup proxies p f with
    | Except.ok proxies2 => (Except.ok (), proxies2)
    | Except.error e => (Except.error e, proxies)
  else
    (Except.error PalletError.BadOrigin, proxies)

/-- The full `remove_proxy` dispatchable (lib.rs, lines 219-233). -/
def remove_proxy_call {A F : Type} [DecidableEq A] [DecidableEq F]
    (adminAuth : A → Bool) (proxies : List (ProxyDefinition A F))
    (caller : A) (p : A) (f : F) :
    Except PalletError Unit × List (ProxyDefinition A F) :=
  if adminAuth caller then
    (Except.ok (), remove_proxy proxies p f)
  else
    (Except.error PalletError.BadOrigin, proxies)

/-- Observable outcome of one `execute_call` invocation: the dispatch result
returned to the caller, the `Proxies` storage afterwards, the origin/call pair
handed to `Dispatchable::dispatch` if any, and the deposited
`CollectiveProxyExecuted` events. -/
structure ExecOutcome (A F C E : Type) where
  result : Except PalletError Unit
  proxiesAfter : List (ProxyDefinition A F)
  dispatched : Option (SystemOrigin A C × C)
  events : List (Except E Unit)

/-- Embeds the `execute_call` dispatchable (lib.rs, lines 154-181):
`CollectiveProxy` gate, `find_proxy`, construction of the signed origin for the
grant's proxy with the grant's filter added, dispatch, and the event deposit.
`execute_call` never writes `Proxies`, so the storage is returned unchanged. -/
def execute_call {A F C P E : Type} [DecidableEq A] (execAuth : A → Bool)
    (base : C → Bool) (permits : F → C → Bool)
    (dispatch : SystemOrigin A C → C → Except (P × E) P)
    (proxies : List (ProxyDefinition A F)) (caller : A) (p : A) (call : C) :
    ExecOutcome A F C E :=
  if execAuth caller then
    match find_proxy proxies p with
    | Except.error e =>
      { result := Except.error e, proxiesAfter := proxies,
        dispatched := none, events := [] }
    | Except.ok d =>
      let origin := addFilter (signedOrigin base d.proxy)
        (fun c => permits d.filter c)
      let e := dispatch origin call
      { result := Except.ok (), proxiesAfter := proxies,
        dispatched := some (origin, call),
        events := [classifyOutcome e] }
  else
    { result := Except.error PalletError.BadOrigin, proxiesAfter := proxies,
      dispatched := none, events := [] }

/-- One extrinsic applied to the pallet, tagged with its caller. -/
inductive PalletOp (A F C : Type) where
  | addOp (caller : A) (p : A) (f : F)
  | removeOp (caller : A) (p : A) (f : F)
  | execOp (caller : A) (p : A) (call : C)

/-- The `Proxies` storage after one extrinsic. -/
def applyOp {A F C P E : Type} [DecidableEq A] [DecidableEq F]
    (adminAuth execAuth : A → Bool) (maxProxies : Nat)
    (sup : F → F → Bool) (base : C → Bool) (permits : F → C → Bool)
    (dispatch : SystemOrigin A C → C → Except (P × E) P)
    (st : List (ProxyDefinition A F)) :
    PalletOp A F C → List (ProxyDefinition A F)
  | PalletOp.addOp caller p f =>
    (add_proxy_call adminAuth maxProxies sup st caller p f).2
  | PalletOp.removeOp caller p f =>
    (remove_proxy_call adminAuth st caller p f).2
  | PalletOp.execOp caller p call =>
    (execute_call execAuth base permits dispatch st caller p call).proxiesAfter

/-- The `Proxies` storage after a sequence of extrinsics. -/
def runOps {A F C P E : Type} [DecidableEq A] [DecidableEq F]
    (adminAuth execAuth : A → Bool) (maxProxies : Nat)
    (sup : F → F → Bool) (base : C → Bool) (permits : F → C → Bool)
    (dispatch : SystemOrigin A C → C → Except (P × E) P)
    (st : List (ProxyDefinition A F)) (ops : List (PalletOp A F C)) :
    List (ProxyDefinition A F) :=
  ops.foldl (applyOp adminAuth execAuth maxProxies sup base permits dispatch) st

/-- Sample superset test on `Nat` filters: a numerically larger filter is the
more permissive one (used only to instantiate witnesses). -/
def natSup (a b : Nat) : Bool := decide (b ≤ a)

/-- Sample `permits` test matching `natSup` (used only in witnesses). -/
def natPermits (f c : Nat) : Bool := decide (c ≤ f)

/-- Sample dispatch collaborator: obeys the origin's call filter and reports
error classification `7` on a rejected call (used only in witnesses). -/
def sampleDispatch (o : SystemOrigin Nat Nat) (c : Nat) :
    Except (Unit × Nat) Unit :=
  if o.callFilter c then Except.ok () else Except.error ((), 7)

/-- Sample authorization oracle accepting every caller (witnesses only). -/
def authAll (_ : Nat) : Bool := true

/-- Sample authorization oracle rejecting every caller (witnesses only). -/
def authNone (_ : Nat) : Bool := false

/-- Sample base call filter allowing every call (witnesses only). -/
def baseAll (_ : Nat) : Bool := true

/-! ## Helper lemmas -/

/-- The Bool scan in `add_proxy` succeeds exactly when some stored grant for
`p` supersedes `f`. -/
theorem add_any_iff {A F : Type} [DecidableEq A] (sup : F → F → Bool)
    (st : List (ProxyDefinition A F)) (p : A) (f : F) :
    (st.any (fun d => decide (d.proxy = p) && sup d.filter f) = true) ↔
      ∃ d ∈ st, d.proxy = p ∧ sup d.filter f = true := by
  simp [List.any_eq_true]

/-- Resolution via `find_proxy` fails with `NotFound` exactly when no stored
grant has the requested proxy account. -/
theorem find_proxy_none_iff {A F : Type} [DecidableEq A]
    (st : List (ProxyDefinition A F)) (p : A) :
    find_proxy st p = Except.error PalletError.NotFound ↔
      ∀ d ∈ st, d.proxy ≠ p := by
  unfold find_proxy
  constructor
  · intro h
    cases hf : st.find? (fun d => decide (d.proxy = p)) with
    | some d => rw [hf] at h; exact absurd h (by simp)
    | none =>
      intro d hd
      have := List.find?_eq_none.mp hf d hd
      simpa using this
  · intro h
    have : st.find? (fun d => decide (d.proxy = p)) = none := by
      rw [List.find?_eq_none]
      intro d hd
      simpa using h d hd
    rw [this]

/-- A successful `List.find?` returns the first satisfying element: the list
splits around it and every earlier element fails the predicate. -/
theorem find?_first {α : Type} (q : α → Bool) (l : List α) (a : α)
    (h : l.find? q = some a) :
    q a = true ∧ ∃ l1 l2, l = l1 ++ a :: l2 ∧ ∀ x ∈ l1, q x = false := by
  induction l with
  | nil => simp [List.find?] at h
  | cons x xs ih =>
    by_cases hx : q x = true
    · rw [List.find?_cons_of_pos _ hx] at h
      injection h with h
      subst h
      exact ⟨hx, [], xs, rfl, by simp⟩
    · rw [List.find?_cons_of_neg _ (by simp [hx])] at h
      obtain ⟨hq, l1, l2, hsplit, hall⟩ := ih h
      refine ⟨hq, x :: l1, l2, by rw [hsplit, List.cons_append], ?_⟩
      intro y hy
      rcases List.mem_cons.mp hy with h1 | h1
      · subst h1; exact Bool.eq_false_iff.mpr hx
      · exact hall y h1

/-! ## Claim theorems -/

/-- C2.  `add_proxy` functional specification: a grant superseded by an
existing grant for the same proxy is a no-op success; otherwise the grant is
appended at the end, and the append fails with `TooManyProxies` exactly when
it would exceed the `MaxProxies` bound. -/
theorem add_proxy_spec {A F : Type} [DecidableEq A] (maxProxies : Nat)
    (sup : F → F → Bool) (st : List (ProxyDefinition A F)) (p : A) (f : F) :
    ((∃ d ∈ st, d.proxy = p ∧ sup d.filter f = true) →
       add_proxy maxProxies sup st p f = Except.ok st)
    ∧ ((¬ ∃ d ∈ st, d.proxy = p ∧ sup d.filter f = true) →
       (st.length < maxProxies →
          add_proxy maxProxies sup st p f = Except.ok (st ++ [⟨p, f⟩]))
       ∧ (maxProxies ≤ st.length →
          add_proxy maxProxies sup st p f =
            Except.error PalletError.TooManyProxies)) := by
  constructor
  · intro h
    have hany := (add_any_iff sup st p f).mpr h
    unfold add_proxy
    rw [if_pos hany]
  · intro h
    have hany : (st.any (fun d => decide (d.proxy = p) && sup d.filter f))
        = false := by
      rw [Bool.eq_false_iff]
      intro hc
      exact h ((add_any_iff sup st p f).mp hc)
    constructor
    · intro hlen
      unfold add_proxy
      rw [if_neg (by simp [hany]), if_pos hlen]
    · intro hlen
      unfold add_proxy
      rw [if_neg (by simp [hany]), if_neg (Nat.not_lt.mpr hlen)]

/-- C2 witness at concrete inputs. -/
theorem add_proxy_spec_witness :
    add_proxy 2 natSup [(⟨0, 5⟩ : ProxyDefinition Nat Nat)] 0 3 =
      Except.ok [⟨0, 5⟩] :=
  (add_proxy_spec 2 natSup [⟨0, 5⟩] 0 3).1 (by decide)

/-- C9.  When the superset test is reflexive, a successful `add_proxy` makes
an immediately repeated identical `add_proxy` a no-op: it succeeds and leaves
the registry (hence its length) unchanged. -/
theorem add_proxy_idempotent {A F : Type} [DecidableEq A] (maxProxies : Nat)
    (sup : F → F → Bool) (st st2 : List (ProxyDefinition A F)) (p : A) (f : F)
    (hrefl : ∀ g, sup g g = true)
    (h : add_proxy maxProxies sup st p f = Except.ok st2) :
    add_proxy maxProxies sup st2 p f = Except.ok st2 := by
  unfold add_proxy at h
  by_cases hany : (st.any (fun d => decide (d.proxy = p) && sup d.filter f))
      = true
  · rw [if_pos hany] at h
    injection h with h
    subst h
    unfold add_proxy
    rw [if_pos hany]
  · rw [if_neg hany] at h
    by_cases hlen : st.length < maxProxies
    · rw [if_pos hlen] at h
      injection h with h
      subst h
      unfold add_proxy
      have hany2 : ((st ++ [(⟨p, f⟩ : ProxyDefinition A F)]).any
          (fun d => decide (d.proxy = p) && sup d.filter f)) = true := by
        simp [hrefl]
      rw [if_pos hany2]
    · rw [if_neg hlen] at h
      exact absurd h (by simp)

/-- C9 witness at concrete inputs. -/
theorem add_proxy_idempotent_witness :
    add_proxy 2 natSup [(⟨1, 7⟩ : ProxyDefinition Nat Nat), ⟨0, 5⟩] 0 5 =
      Except.ok [⟨1, 7⟩, ⟨0, 5⟩] :=
  add_proxy_idempotent 2 natSup [⟨1, 7⟩] [⟨1, 7⟩, ⟨0, 5⟩] 0 5
    (fun g => by simp [natSup]) rfl

/-- C10.  The superset scan runs before the capacity check: even with the
registry full, `add_proxy` of a grant superseded by an existing grant for the
same proxy succeeds as a no-op instead of failing with `TooManyProxies`. -/
theorem add_proxy_superset_before_capacity {A F : Type} [DecidableEq A]
    (maxProxies : Nat) (sup : F → F → Bool)
    (st : List (ProxyDefinition A F)) (p : A) (f : F)
    (_hfull : st.length = maxProxies)
    (hsup : ∃ d ∈ st, d.proxy = p ∧ sup d.filter f = true) :
    add_proxy maxProxies sup st p f = Except.ok st := by
  have hany := (add_any_iff sup st p f).mpr hsup
  unfold add_proxy
  rw [if_pos hany]

/-- C10 witness at concrete inputs: registry full (`MaxProxies = 1`), yet the
superseded add succeeds without `TooManyProxies`. -/
theorem add_proxy_superset_before_capacity_witness :
    add_proxy 1 natSup [(⟨0, 5⟩ : ProxyDefinition Nat Nat)] 0 3 =
      Except.ok [⟨0, 5⟩] :=
  add_proxy_superset_before_capacity 1 natSup [⟨0, 5⟩] 0 3 (by decide)
    (by decide)

/-- C6.  `remove_proxy` with an authorized caller always succeeds, removes
every grant exactly equal to `(p, f)` (duplicates included), preserves the
multiplicity of every other grant — in particular grants for the same proxy
with a different filter — and is a no-op when no grant matches. -/
theorem remove_proxy_spec {A F : Type} [DecidableEq A] [DecidableEq F]
    (adminAuth : A → Bool) (st : List (ProxyDefinition A F))
    (caller p : A) (f : F) (hadmin : adminAuth caller = true) :
    (remove_proxy_call adminAuth st caller p f).1 = Except.ok ()
    ∧ (remove_proxy_call adminAuth st caller p f).2.count ⟨p, f⟩ = 0
    ∧ (∀ d, d ≠ (⟨p, f⟩ : ProxyDefinition A F) →
        (remove_proxy_call adminAuth st caller p f).2.count d = st.count d)
    ∧ ((⟨p, f⟩ : ProxyDefinition A F) ∉ st →
        (remove_proxy_call adminAuth st caller p f).2 = st) := by
  have hcall : (remove_proxy_call adminAuth st caller p f) =
      (Except.ok (), remove_proxy st p f) := by
    unfold remove_proxy_call
    rw [if_pos hadmin]
  refine ⟨by rw [hcall], ?_, ?_, ?_⟩
  · rw [hcall]
    refine List.count_eq_zero.mpr ?_
    simp [remove_proxy]
  · intro d hd
    rw [hcall]
    exact List.count_filter (by simpa using hd)
  · intro hnotin
    rw [hcall]
    refine List.filter_eq_self.mpr ?_
    intro a ha
    simp only [decide_eq_true_eq]
    intro hc
    exact hnotin (hc ▸ ha)

/-- C6 witness at concrete inputs: both copies of `(0,5)` go, `(0,6)` stays,
and removing an absent grant is a no-op. -/
theorem remove_proxy_spec_witness :
    (remove_proxy_call authAll
        [(⟨0, 5⟩ : ProxyDefinition Nat Nat), ⟨0, 6⟩, ⟨0, 5⟩] 9 0 5).1 =
      Except.ok ()
    ∧ (remove_proxy_call authAll
        [(⟨0, 5⟩ : ProxyDefinition Nat Nat), ⟨0, 6⟩, ⟨0, 5⟩] 9 0 5).2.count
        ⟨0, 5⟩ = 0
    ∧ (remove_proxy_call authAll
        [(⟨0, 5⟩ : ProxyDefinition Nat Nat), ⟨0, 6⟩, ⟨0, 5⟩] 9 0 5).2.count
        ⟨0, 6⟩ =
        ([(⟨0, 5⟩ : ProxyDefinition Nat Nat), ⟨0, 6⟩, ⟨0, 5⟩]).count ⟨0, 6⟩ :=
  have h := remove_proxy_spec authAll
    [(⟨0, 5⟩ : ProxyDefinition Nat Nat), ⟨0, 6⟩, ⟨0, 5⟩] 9 0 5 rfl
  ⟨h.1, h.2.1, h.2.2.1 ⟨0, 6⟩ (by decide)⟩

/-- C7.  `find_proxy` returns the first grant in registry order whose `proxy`
field equals the requested account — every earlier grant has a different
proxy — and fails with `NotFound` exactly when no grant matches. -/
theorem find_proxy_spec {A F : Type} [DecidableEq A]
    (st : List (ProxyDefinition A F)) (p : A) :
    (∀ d, find_proxy st p = Except.ok d →
       d.proxy = p ∧ ∃ l1 l2, st = l1 ++ d :: l2 ∧ ∀ x ∈ l1, x.proxy ≠ p)
    ∧ (find_proxy st p = Except.error PalletError.NotFound ↔
       ∀ d ∈ st, d.proxy ≠ p) := by
  constructor
  · intro d h
    have hfind : st.find? (fun x => decide (x.proxy = p)) = some d := by
      unfold find_proxy at h
      cases hf : st.find? (fun x => decide (x.proxy = p)) with
      | some d2 =>
        rw [hf] at h
        injection h with h
        exact congrArg some h
      | none => rw [hf] at h; exact absurd h (by simp)
    obtain ⟨hq, l1, l2, hsplit, hall⟩ := find?_first _ st d hfind
    refine ⟨by simpa using hq, l1, l2, hsplit, ?_⟩
    intro x hx
    simpa using hall x hx
  · exact find_proxy_none_iff st p

/-- C7 witness at concrete inputs: with two grants for proxy `0`, resolution
returns the first one. -/
theorem find_proxy_spec_witness :
    (⟨0, 1⟩ : ProxyDefinition Nat Nat).proxy = 0
    ∧ ∃ l1 l2, [(⟨0, 1⟩ : ProxyDefinition Nat Nat), ⟨0, 2⟩] =
        l1 ++ (⟨0, 1⟩ : ProxyDefinition Nat Nat) :: l2
        ∧ ∀ x ∈ l1, x.proxy ≠ 0 :=
  (find_proxy_spec [(⟨0, 1⟩ : ProxyDefinition Nat Nat), ⟨0, 2⟩] 0).1
    ⟨0, 1⟩ rfl

/-- C5.  `execute_call` gates in order: a caller rejected by the executor
oracle gets `BadOrigin` with nothing dispatched, no event and the registry
untouched; an authorized caller naming an unregistered proxy gets `NotFound`
with nothing dispatched. -/
theorem execute_call_gate_order {A F C P E : Type} [DecidableEq A]
    (execAuth : A → Bool) (base : C → Bool) (permits : F → C → Bool)
    (dispatch : SystemOrigin A C → C → Except (P × E) P)
    (st : List (ProxyDefinition A F)) (caller p : A) (call : C) :
    (execAuth caller = false →
       (execute_call execAuth base permits dispatch st caller p call).result =
         Except.error PalletError.BadOrigin
       ∧ (execute_call execAuth base permits dispatch st caller p
           call).dispatched = none
       ∧ (execute_call execAuth base permits dispatch st caller p call).events
           = []
       ∧ (execute_call execAuth base permits dispatch st caller p
           call).proxiesAfter = st)
    ∧ (execAuth caller = true → (∀ d ∈ st, d.proxy ≠ p) →
       (execute_call execAuth base permits dispatch st caller p call).result =
         Except.error PalletError.NotFound
       ∧ (execute_call execAuth base permits dispatch st caller p
           call).dispatched = none
       ∧ (execute_call execAuth base permits dispatch st caller p call).events
           = []) := by
  constructor
  · intro h
    refine ⟨?_, ?_, ?_, ?_⟩ <;> simp [execute_call, h]
  · intro h hnone
    have hf : find_proxy st p = Except.error PalletError.NotFound :=
      (find_proxy_none_iff st p).mpr hnone
    refine ⟨?_, ?_, ?_⟩ <;> simp [execute_call, h, hf]

/-- C5 witness at concrete inputs: an unauthorized caller is rejected with
`BadOrigin` and nothing is dispatched. -/
theorem execute_call_gate_order_witness :
    (execute_call authNone baseAll natPermits sampleDispatch
        [(⟨1, 5⟩ : ProxyDefinition Nat Nat)] 9 1 3).result =
      Except.error PalletError.BadOrigin
    ∧ (execute_call authNone baseAll natPermits sampleDispatch
        [(⟨1, 5⟩ : ProxyDefinition Nat Nat)] 9 1 3).dispatched = none
    ∧ (execute_call authNone baseAll natPermits sampleDispatch
        [(⟨1, 5⟩ : ProxyDefinition Nat Nat)] 9 1 3).events = []
    ∧ (execute_call authNone baseAll natPermits sampleDispatch
        [(⟨1, 5⟩ : ProxyDefinition Nat Nat)] 9 1 3).proxiesAfter =
      [⟨1, 5⟩] :=
  (execute_call_gate_order authNone baseAll natPermits sampleDispatch
    [(⟨1, 5⟩ : ProxyDefinition Nat Nat)] 9 1 3).1 rfl

/-- C3.  With an authorized caller and a resolvable proxy, the origin handed
to `dispatch` signs as the resolved grant's proxy account — not the caller,
whenever the two differ — and its call filter only passes calls that the
grant's filter permits. -/
theorem execute_call_origin_identity {A F C P E : Type} [DecidableEq A]
    (execAuth : A → Bool) (base : C → Bool) (permits : F → C → Bool)
    (dispatch : SystemOrigin A C → C → Except (P × E) P)
    (st : List (ProxyDefinition A F)) (caller p : A) (call : C)
    (d : ProxyDefinition A F)
    (hauth : execAuth caller = true)
    (hfind : find_proxy st p = Except.ok d) :
    ∃ o : SystemOrigin A C,
      (execute_call execAuth base permits dispatch st caller p
          call).dispatched = some (o, call)
      ∧ o.who = d.proxy
      ∧ (d.proxy ≠ caller → o.who ≠ caller)
      ∧ (∀ c, o.callFilter c = true → permits d.filter c = true) := by
  refine ⟨addFilter (signedOrigin base d.proxy) (fun c => permits d.filter c),
    ?_, rfl, ?_, ?_⟩
  · simp [execute_call, hauth, hfind]
  · intro hne
    simpa [addFilter, signedOrigin] using hne
  · intro c hc
    simp only [addFilter, signedOrigin, Bool.and_eq_true] at hc
    exact hc.2

/-- C3 witness at concrete inputs: caller `9` dispatches through proxy `1`. -/
theorem execute_call_origin_identity_witness :
    ∃ o : SystemOrigin Nat Nat,
      (execute_call authAll baseAll natPermits sampleDispatch
          [(⟨1, 5⟩ : ProxyDefinition Nat Nat)] 9 1 3).dispatched = some (o, 3)
      ∧ o.who = 1
      ∧ ((1 : Nat) ≠ 9 → o.who ≠ 9)
      ∧ (∀ c, o.callFilter c = true → natPermits 5 c = true) :=
  execute_call_origin_identity authAll baseAll natPermits sampleDispatch
    [(⟨1, 5⟩ : ProxyDefinition Nat Nat)] 9 1 3 ⟨1, 5⟩ rfl rfl

/-- C4.  With an authorized caller and a resolvable proxy, `execute_call`
itself returns success for every dispatch collaborator; the dispatch outcome
appears only in the deposited event, with the post-dispatch payload discarded
and only the error classification kept. -/
theorem execute_call_result_always_ok {A F C P E : Type} [DecidableEq A]
    (execAuth : A → Bool) (base : C → Bool) (permits : F → C → Bool)
    (dispatch : SystemOrigin A C → C → Except (P × E) P)
    (st : List (ProxyDefinition A F)) (caller p : A) (call : C)
    (d : ProxyDefinition A F)
    (hauth : execAuth caller = true)
    (hfind : find_proxy st p = Except.ok d) :
    (execute_call execAuth base permits dispatch st caller p call).result =
      Except.ok ()
    ∧ (execute_call execAuth base permits dispatch st caller p call).events =
      [classifyOutcome (dispatch
        (addFilter (signedOrigin base d.proxy) (fun c => permits d.filter c))
        call)]
    ∧ (∀ post : P, classifyOutcome (E := E) (Except.ok post) = Except.ok ())
    ∧ (∀ (post : P) (err : E),
        classifyOutcome (Except.error (post, err)) = Except.error err) := by
  refine ⟨?_, ?_, fun post => rfl, fun post err => rfl⟩ <;>
    simp [execute_call, hauth, hfind]

/-- C4 witness at concrete inputs: the filter rejects call `9`, the dispatch
fails, yet `execute_call` returns success and the event carries the error
classification `7` without the payload. -/
theorem execute_call_result_always_ok_witness :
    (execute_call authAll baseAll natPermits sampleDispatch
        [(⟨1, 5⟩ : ProxyDefinition Nat Nat)] 9 1 9).result = Except.ok ()
    ∧ (execute_call authAll baseAll natPermits sampleDispatch
        [(⟨1, 5⟩ : ProxyDefinition Nat Nat)] 9 1 9).events =
      [classifyOutcome (sampleDispatch
        (addFilter (signedOrigin baseAll (⟨1, 5⟩ : ProxyDefinition Nat
          Nat).proxy) (fun c => natPermits 5 c)) 9)] :=
  have h := execute_call_result_always_ok authAll baseAll natPermits
    sampleDispatch [(⟨1, 5⟩ : ProxyDefinition Nat Nat)] 9 1 9 ⟨1, 5⟩ rfl rfl
  ⟨h.1, h.2.1⟩

/-- A successful `add_proxy` grows the registry by at most one and stays
within the bound. -/
theorem add_proxy_length_le {A F : Type} [DecidableEq A] (maxProxies : Nat)
    (sup : F → F → Bool) (st st2 : List (ProxyDefinition A F)) (p : A) (f : F)
    (h2 : add_proxy maxProxies sup st p f = Except.ok st2)
    (h : st.length ≤ maxProxies) : st2.length ≤ maxProxies := by
  unfold add_proxy at h2
  by_cases hany : (st.any (fun d => decide (d.proxy = p) && sup d.filter f))
      = true
  · rw [if_pos hany] at h2
    injection h2 with h2
    subst h2
    exact h
  · rw [if_neg hany] at h2
    by_cases hlen : st.length < maxProxies
    · rw [if_pos hlen] at h2
      injection h2 with h2
      subst h2
      simp only [List.length_append, List.length_cons, List.length_nil]
      omega
    · rw [if_neg hlen] at h2
      exact absurd h2 (by simp)

/-- One extrinsic keeps the registry within the bound. -/
theorem applyOp_length_le {A F C P E : Type} [DecidableEq A] [DecidableEq F]
    (adminAuth execAuth : A → Bool) (maxProxies : Nat)
    (sup : F → F → Bool) (base : C → Bool) (permits : F → C → Bool)
    (dispatch : SystemOrigin A C → C → Except (P × E) P)
    (st : List (ProxyDefinition A F)) (op : PalletOp A F C)
    (h : st.length ≤ maxProxies) :
    (applyOp adminAuth execAuth maxProxies sup base permits dispatch st
      op).length ≤ maxProxies := by
  cases op with
  | addOp caller p f =>
    show (add_proxy_call adminAuth maxProxies sup st caller p f).2.length ≤
      maxProxies
    unfold add_proxy_call
    by_cases hadmin : adminAuth caller = true
    · rw [if_pos hadmin]
      cases hadd : add_proxy maxProxies sup st p f with
      | ok st2 =>
        simpa using add_proxy_length_le maxProxies sup st st2 p f hadd h
      | error e => simpa using h
    · rw [if_neg hadmin]
      exact h
  | removeOp caller p f =>
    show (remove_proxy_call adminAuth st caller p f).2.length ≤ maxProxies
    unfold remove_proxy_call
    by_cases hadmin : adminAuth caller = true
    · rw [if_pos hadmin]
      exact le_trans (List.length_filter_le _ st) h
    · rw [if_neg hadmin]
      exact h
  | execOp caller p call =>
    show (execute_call execAuth base permits dispatch st caller p
      call).proxiesAfter.length ≤ maxProxies
    unfold execute_call
    by_cases hexec : execAuth caller = true
    · rw [if_pos hexec]
      cases hf : find_proxy st p with
      | ok d => simpa using h
      | error e => simpa using h
    · rw [if_neg hexec]
      exact h

/-- Any sequence of extrinsics keeps the registry within the bound. -/
theorem runOps_length_le {A F C P E : Type} [DecidableEq A] [DecidableEq F]
    (adminAuth execAuth : A → Bool) (maxProxies : Nat)
    (sup : F → F → Bool) (base : C → Bool) (permits : F → C → Bool)
    (dispatch : SystemOrigin A C → C → Except (P × E) P)
    (ops : List (PalletOp A F C)) :
    ∀ st : List (ProxyDefinition A F), st.length ≤ maxProxies →
    (runOps adminAuth execAuth maxProxies sup base permits dispatch st
      ops).length ≤ maxProxies := by
  induction ops with
  | nil => intro st h; simpa [runOps] using h
  | cons op ops ih =>
    intro st h
    exact ih _ (applyOp_length_le adminAuth execAuth maxProxies sup base
      permits dispatch st op h)

/-- C1 (amended).  Starting within the bound, the registry length never
exceeds `MaxProxies` under any sequence of `add_proxy`, `remove_proxy` and
`execute_call` extrinsics; and when the registry is full, an add whose
`(proxy, filter)` is not superseded by any existing grant for that proxy
fails with `TooManyProxies` and leaves the registry unchanged. -/
theorem registry_bounded {A F C P E : Type} [DecidableEq A] [DecidableEq F]
    (adminAuth execAuth : A → Bool) (maxProxies : Nat)
    (sup : F → F → Bool) (base : C → Bool) (permits : F → C → Bool)
    (dispatch : SystemOrigin A C → C → Except (P × E) P) :
    (∀ (init : List (ProxyDefinition A F)) (ops : List (PalletOp A F C)),
       init.length ≤ maxProxies →
       (runOps adminAuth execAuth maxProxies sup base permits dispatch init
         ops).length ≤ maxProxies)
    ∧ (∀ (st : List (ProxyDefinition A F)) (p : A) (f : F) (caller : A),
       st.length = maxProxies →
       (∀ d ∈ st, d.proxy = p → sup d.filter f = false) →
       add_proxy maxProxies sup st p f =
         Except.error PalletError.TooManyProxies
       ∧ (add_proxy_call adminAuth maxProxies sup st caller p f).2 = st) := by
  constructor
  · intro init ops h
    exact runOps_length_le adminAuth execAuth maxProxies sup base permits
      dispatch ops init h
  · intro st p f caller hfull hns
    have hany : (st.any (fun d => decide (d.proxy = p) && sup d.filter f))
        = false := by
      rw [Bool.eq_false_iff]
      intro hc
      obtain ⟨d, hd, h1, h2⟩ := (add_any_iff sup st p f).mp hc
      rw [hns d hd h1] at h2
      exact Bool.noConfusion h2
    have herr : add_proxy maxProxies sup st p f =
        Except.error PalletError.TooManyProxies := by
      unfold add_proxy
      rw [if_neg (by simp [hany]), if_neg (by omega)]
    refine ⟨herr, ?_⟩
    unfold add_proxy_call
    by_cases hadmin : adminAuth caller = true
    · rw [if_pos hadmin, herr]
    · rw [if_neg hadmin]

/-- C1 witness at concrete inputs: three adds against `MaxProxies = 2` stay
bounded, and the third (non-superseded) add fails without mutating. -/
theorem registry_bounded_witness :
    (runOps authAll authAll 2 natSup baseAll natPermits sampleDispatch
        ([] : List (ProxyDefinition Nat Nat))
        [PalletOp.addOp 9 0 5, PalletOp.addOp 9 1 5,
          PalletOp.addOp 9 2 6]).length ≤ 2
    ∧ add_proxy 2 natSup [(⟨0, 5⟩ : ProxyDefinition Nat Nat), ⟨1, 5⟩] 2 6 =
        Except.error PalletError.TooManyProxies
    ∧ (add_proxy_call authAll 2 natSup
        [(⟨0, 5⟩ : ProxyDefinition Nat Nat), ⟨1, 5⟩] 9 2 6).2 =
        [⟨0, 5⟩, ⟨1, 5⟩] :=
  have h := registry_bounded authAll authAll 2 natSup baseAll natPermits
    sampleDispatch
  have h2 := h.2 [(⟨0, 5⟩ : ProxyDefinition Nat Nat), ⟨1, 5⟩] 2 6 9 rfl
    (by decide)
  ⟨h.1 [] [PalletOp.addOp 9 0 5, PalletOp.addOp 9 1 5, PalletOp.addOp 9 2 6]
    (by decide), h2.1, h2.2⟩

/-- C1 counterexample to the claim as stated: with `MaxProxies = 1` and the
registry full at `[(0, 2)]`, the pair `(0, 1)` is distinct from every stored
grant, yet `add_proxy` succeeds as a no-op instead of failing with
`TooManyProxies`, because the stored filter `2` supersedes `1`. -/
theorem registry_bounded_cex :
    ([(⟨0, 2⟩ : ProxyDefinition Nat Nat)]).length = 1
    ∧ (⟨0, 1⟩ : ProxyDefinition Nat Nat) ∉
        [(⟨0, 2⟩ : ProxyDefinition Nat Nat)]
    ∧ add_proxy 1 natSup [(⟨0, 2⟩ : ProxyDefinition Nat Nat)] 0 1 =
        Except.ok [⟨0, 2⟩]
    ∧ add_proxy 1 natSup [(⟨0, 2⟩ : ProxyDefinition Nat Nat)] 0 1 ≠
        Except.error PalletError.TooManyProxies := by
  refine ⟨rfl, by decide, rfl, by decide⟩

/-- C8 (amended).  With an authorized caller and a pair `(p, f)` not already
stored as a grant, `add_proxy` followed by `remove_proxy` of the same pair
restores the registry exactly — whether the add was a superseded no-op,
appended, or failed on capacity, and for an arbitrary superset test. -/
theorem add_remove_roundtrip {A F : Type} [DecidableEq A] [DecidableEq F]
    (adminAuth : A → Bool) (maxProxies : Nat) (sup : F → F → Bool)
    (st : List (ProxyDefinition A F)) (caller p : A) (f : F)
    (hadmin : adminAuth caller = true)
    (hnotin : (⟨p, f⟩ : ProxyDefinition A F) ∉ st) :
    (remove_proxy_call adminAuth
      (add_proxy_call adminAuth maxProxies sup st caller p f).2
      caller p f).2 = st := by
  have hfil : st.filter
      (fun d => decide (d ≠ (⟨p, f⟩ : ProxyDefinition A F))) = st := by
    refine List.filter_eq_self.mpr ?_
    intro a ha
    simp only [decide_eq_true_eq]
    intro hc
    exact hnotin (hc ▸ ha)
  have hrem : ∀ l2 : List (ProxyDefinition A F),
      (remove_proxy_call adminAuth l2 caller p f).2 = remove_proxy l2 p f := by
    intro l2
    unfold remove_proxy_call
    rw [if_pos hadmin]
  have hcall : (add_proxy_call adminAuth maxProxies sup st caller p f).2 = st
      ∨ (add_proxy_call adminAuth maxProxies sup st caller p f).2 =
        st ++ [⟨p, f⟩] := by
    unfold add_proxy_call
    rw [if_pos hadmin]
    unfold add_proxy
    by_cases hany : (st.any (fun d => decide (d.proxy = p) && sup d.filter f))
        = true
    · rw [if_pos hany]
      exact Or.inl rfl
    · rw [if_neg hany]
      by_cases hlen : st.length < maxProxies
      · rw [if_pos hlen]
        exact Or.inr rfl
      · rw [if_neg hlen]
        exact Or.inl rfl
  rcases hcall with h | h
  · rw [h, hrem]
    exact hfil
  · rw [h, hrem]
    unfold remove_proxy
    rw [List.filter_append, hfil]
    simp

/-- C8 witness at concrete inputs: the stored grant `(0, 9)` supersedes the
added `(0, 5)`, so the add is a no-op, and the remove still restores the
registry exactly. -/
theorem add_remove_roundtrip_witness :
    (remove_proxy_call authAll
      (add_proxy_call authAll 2 natSup
        [(⟨0, 9⟩ : ProxyDefinition Nat Nat)] 9 0 5).2 9 0 5).2 = [⟨0, 9⟩] :=
  add_remove_roundtrip authAll 2 natSup [(⟨0, 9⟩ : ProxyDefinition Nat Nat)]
    9 0 5 rfl (by decide)

/-- C8 counterexample to the claim as stated: with the grant `(0, 5)` already
stored and a reflexive superset test, `add_proxy (0, 5)` is a no-op success,
and the following `remove_proxy (0, 5)` deletes the pre-existing grant, so the
prior registry is not restored. -/
theorem add_remove_roundtrip_cex :
    add_proxy 2 natSup [(⟨0, 5⟩ : ProxyDefinition Nat Nat)] 0 5 =
      Except.ok [⟨0, 5⟩]
    ∧ remove_proxy [(⟨0, 5⟩ : ProxyDefinition Nat Nat)] 0 5 = []
    ∧ ([] : List (ProxyDefinition Nat Nat)) ≠ [⟨0, 5⟩] := by
  refine ⟨rfl, rfl, by decide⟩
